import Mathlib

/-!
Verification of the SAR narrative-generation pipeline (`llm/pipeline.py`,
`llm/templates.py`, and the `/generate-sar` endpoint of `backend/main.py`)
against its natural-language specification.

Shallow embedding conventions:
* Python strings become Lean `String`; `str.lower()` becomes `lowerStr`
  (ASCII case folding, which covers every keyword in the tables);
  the Python substring test `pat in hay` becomes `strContains hay pat`.
* The ChromaDB query is an external effect; its per-call outcome is a
  parameter `queryResult : Option (List (String × String))` — `some docs`
  is a successful query returning `(typology-metadata, document)` pairs,
  `none` is any exception raised by the client or the query.
* The Ollama/LangChain call is an external effect; the backend is a
  parameter `llm : String → LLMOutcome` applied to the formatted prompt;
  `LLMOutcome.error` covers backend errors and timeouts.
* Scores are `Int` (Python `int`), with the exact `max`/`min` clamps of
  the source.
-/

/-- ASCII case folding of a string, embedding Python `str.lower()` for the
ASCII keyword tables and inputs used here. -/
def lowerStr (s : String) : String := ⟨s.data.map Char.toLower⟩

/-- `leadsWith pat s` is true when `pat` is an initial segment of `s`. -/
def leadsWith : List Char → List Char → Bool
  | [], _ => true
  | _ :: _, [] => false
  | p :: ps, c :: cs => p == c && leadsWith ps cs

/-- `hasSub pat s` is true when `pat` occurs as a contiguous subsequence of
`s` (Python `pat in s`; the empty pattern occurs in every string). -/
def hasSub : List Char → List Char → Bool
  | pat, [] => pat.isEmpty
  | pat, c :: cs => leadsWith pat (c :: cs) || hasSub pat cs

/-- Python `pat in hay` on strings. -/
def strContains (hay pat : String) : Bool := hasSub pat.data hay.data

-- Risk keyword tiers, from `llm/templates.py` `RISK_KEYWORDS`.

/-- `RISK_KEYWORDS["high_risk"]`. -/
def riskKeywordsHigh : List String :=
  ["offshore", "shell company", "cash intensive", "structuring", "smurfing",
   "immediately transferred", "same day", "high risk jurisdiction", "fatf",
   "hawala", "cryptocurrency", "multiple accounts", "layering", "no business purpose",
   "beneficial owner unknown", "pep", "politically exposed", "sanctions"]

/-- `RISK_KEYWORDS["medium_risk"]`. -/
def riskKeywordsMedium : List String :=
  ["unusual pattern", "inconsistent", "new beneficiary", "first time",
   "cannot explain", "no salary", "bulk transfer", "round amount",
   "late night transaction", "multiple devices", "new location"]

/-- `RISK_KEYWORDS["low_risk"]`. -/
def riskKeywordsLow : List String :=
  ["regular transaction", "known beneficiary", "salary credit",
   "utility payment", "small amount", "domestic transfer"]

/-- `TYPOLOGY_PATTERNS` from `llm/templates.py`, in Python dict insertion
order (which `dict.items()` preserves). -/
def typologyPatterns : List (String × List String) :=
  [("Money Laundering - Layering",
    ["multiple accounts", "international transfer", "same day", "layering",
     "offshore", "different sources", "immediately wired", "aggregation"]),
   ("Structuring / Smurfing",
    ["below threshold", "cash deposits", "multiple deposits", "49000", "49,000",
     "sub-threshold", "structured", "avoid reporting", "fragmented"]),
   ("Account Takeover Fraud",
    ["new device", "new location", "new beneficiary", "unauthorized",
     "unrecognized", "customer confirmed", "mule account", "credential"]),
   ("Trade-Based Money Laundering",
    ["invoice", "import", "export", "customs", "trade", "discrepancy",
     "over-invoicing", "under-invoicing", "goods value"]),
   ("Terrorist Financing",
    ["high risk country", "small transfers", "sanctioned", "fatf listed",
     "no business relationship", "frequent small", "monitored jurisdiction"])]

/-- `sum(1 for kw in keywords if kw.lower() in text_lower)` in
`calculate_risk_score`. -/
def matchCount (textLower : String) (keywords : List String) : Nat :=
  keywords.countP (fun kw => strContains textLower (lowerStr kw))

/-- The typology-detection loop of `calculate_risk_score` (lines 101-106):
running `best_match_count` and `matched_typology`, updated only on a strict
increase of the match count. -/
def typLoop (textLower : String) :
    List (String × List String) → Nat → String → Nat × String
  | [], best, matched => (best, matched)
  | (ty, kws) :: rest, best, matched =>
    let c := matchCount textLower kws
    if best < c then typLoop textLower rest c ty
    else typLoop textLower rest best matched

/-- `calculate_risk_score(transactions, customer_name)` from
`llm/pipeline.py` lines 75-111.  The `customer_name` parameter is accepted
and, as in the source, never used. -/
def calculateRiskScore (transactions customer_name : String) : Int × String :=
  let textLower := lowerStr transactions
  let scoreHigh : Int := riskKeywordsHigh.foldl
    (fun s kw => if strContains textLower (lowerStr kw) then s + 8 else s) 0
  let scoreMed : Int := riskKeywordsMedium.foldl
    (fun s kw => if strContains textLower (lowerStr kw) then s + 4 else s) scoreHigh
  let scoreLow : Int := riskKeywordsLow.foldl
    (fun s kw => if strContains textLower (lowerStr kw) then max 0 (s - 2) else s) scoreMed
  let scoreCapped : Int := min scoreLow 100
  let tyres := typLoop textLower typologyPatterns 0 "General Suspicious Activity"
  let scoreFloored : Int := max scoreCapped 30
  (scoreFloored, tyres.2)

lemma clamp_bounds (s : Int) : 30 ≤ max (min s 100) 30 ∧ max (min s 100) 30 ≤ 100 := by
  constructor
  · exact le_max_right _ _
  · exact max_le (min_le_right s 100) (by norm_num)

lemma calculateRiskScore_fst (t n : String) :
    30 ≤ (calculateRiskScore t n).1 ∧ (calculateRiskScore t n).1 ≤ 100 := by
  have h := clamp_bounds ((riskKeywordsLow.foldl
    (fun s kw => if strContains (lowerStr t) (lowerStr kw) then max 0 (s - 2) else s)
    (riskKeywordsMedium.foldl
      (fun s kw => if strContains (lowerStr t) (lowerStr kw) then s + 4 else s)
      (riskKeywordsHigh.foldl
        (fun s kw => if strContains (lowerStr t) (lowerStr kw) then s + 8 else s) 0))))
  exact h

/-- Maximum keyword-match count over a typology table. -/
def maxMatch (textLower : String) : List (String × List String) → Nat
  | [] => 0
  | p :: rest => max (matchCount textLower p.2) (maxMatch textLower rest)

lemma maxMatch_attained (tl : String) (pairs : List (String × List String)) :
    maxMatch tl pairs = 0 ∨ ∃ p ∈ pairs, matchCount tl p.2 = maxMatch tl pairs := by
  induction pairs with
  | nil => exact Or.inl rfl
  | cons hd rest ih =>
    rcases le_total (maxMatch tl rest) (matchCount tl hd.2) with hle | hle
    · right
      exact ⟨hd, List.mem_cons_self _ _, (Nat.max_eq_left hle).symm⟩
    · rcases ih with h0 | ⟨p, hp, hc⟩
      · rcases Nat.eq_zero_or_pos (matchCount tl hd.2) with hc0 | hpos
        · left
          simp [maxMatch, hc0, h0]
        · right
          refine ⟨hd, List.mem_cons_self _ _, ?_⟩
          have : maxMatch tl rest ≤ matchCount tl hd.2 := by omega
          exact (Nat.max_eq_left this).symm
      · right
        exact ⟨p, List.mem_cons_of_mem _ hp, by rw [hc]; exact (Nat.max_eq_right hle).symm⟩

lemma typLoop_snd (tl : String) (pairs : List (String × List String)) (b : Nat) (m : String) :
    (typLoop tl pairs b m).2 =
      if b < maxMatch tl pairs
      then ((pairs.find? (fun p => matchCount tl p.2 == maxMatch tl pairs)).map Prod.fst).getD m
      else m := by
  induction pairs generalizing b m with
  | nil => simp [typLoop, maxMatch]
  | cons hd rest ih =>
    obtain ⟨ty, kws⟩ := hd
    simp only [typLoop, maxMatch]
    by_cases hbc : b < matchCount tl kws
    · rw [if_pos hbc, ih]
      rcases le_or_lt (maxMatch tl rest) (matchCount tl kws) with hle | hlt
      · -- the head attains the maximum; it is picked and kept
        have hmax : max (matchCount tl kws) (maxMatch tl rest) = matchCount tl kws :=
          max_eq_left hle
        have h1 : ¬ (matchCount tl kws < maxMatch tl rest) := by omega
        rw [hmax, if_neg h1, if_pos hbc, List.find?_cons]
        simp
      · -- the maximum lies strictly inside the tail
        have hmax : max (matchCount tl kws) (maxMatch tl rest) = maxMatch tl rest :=
          max_eq_right (le_of_lt hlt)
        have hne : matchCount tl kws ≠ maxMatch tl rest := Nat.ne_of_lt hlt
        have h2 : b < maxMatch tl rest := by omega
        rw [hmax, if_pos hlt, if_pos h2, List.find?_cons]
        rcases maxMatch_attained tl rest with h0 | ⟨p, hp, hc⟩
        · omega
        · have hsome : (rest.find? (fun p => matchCount tl p.2 == maxMatch tl rest)).isSome :=
            List.find?_isSome.mpr ⟨p, hp, by simp [hc]⟩
          obtain ⟨q, hq⟩ := Option.isSome_iff_exists.mp hsome
          have hfalse : (matchCount tl kws == maxMatch tl rest) = false := by
            simpa using hne
          simp [hfalse, hq]
    · rw [if_neg hbc, ih]
      have hcb : matchCount tl kws ≤ b := by omega
      rcases Nat.lt_or_ge b (maxMatch tl rest) with hbM | hMb
      · have hmax : max (matchCount tl kws) (maxMatch tl rest) = maxMatch tl rest :=
          max_eq_right (by omega)
        have hne : matchCount tl kws ≠ maxMatch tl rest := Nat.ne_of_lt (by omega)
        rw [hmax, if_pos hbM, if_pos hbM, List.find?_cons]
        have hfalse : (matchCount tl kws == maxMatch tl rest) = false := by
          simpa using hne
        simp [hfalse]
      · have hcond : ¬ b < max (matchCount tl kws) (maxMatch tl rest) :=
          not_lt.mpr (max_le hcb hMb)
        have h3 : ¬ b < maxMatch tl rest := by omega
        rw [if_neg h3, if_neg hcond]

/-- C3: for every input string (including the empty string and strings
matching no keyword of any tier), the risk score is an integer in [0,100];
the floor of 30 is applied unconditionally after keyword scoring, so the
returned score always satisfies 30 ≤ risk_score ≤ 100 — in particular the
empty input, which matches no keyword at all, still scores exactly 30. -/
theorem risk_score_bounds :
    (∀ transactions customer_name : String,
        30 ≤ (calculateRiskScore transactions customer_name).1 ∧
        (calculateRiskScore transactions customer_name).1 ≤ 100) ∧
    (calculateRiskScore "" "").1 = 30 := by
  refine ⟨fun t n => calculateRiskScore_fst t n, ?_⟩
  decide

/-- C9: the classifier is a deterministic function of the transaction text
and the static keyword tables alone — the `customer_name` argument has no
influence on the returned (risk_score, typology) pair. -/
theorem classifier_ignores_customer_name (transactions n1 n2 : String) :
    calculateRiskScore transactions n1 = calculateRiskScore transactions n2 := rfl

/-- C6: the returned typology is the label of the first typology in
enumeration order whose keyword list attains the (strictly positive)
maximum substring-match count — `find?` returns the first table entry
attaining the maximum, which is exactly the strict-maximum update with
first-entry tie-break — and when the maximum match count is zero the
typology is the generic default label; the result is always one of the
fixed labels or the default. -/
theorem typology_selection (text n : String) :
    (((calculateRiskScore text n).2 = "General Suspicious Activity" ∧
        maxMatch (lowerStr text) typologyPatterns = 0) ∨
      (∃ p, typologyPatterns.find?
            (fun q => matchCount (lowerStr text) q.2 ==
              maxMatch (lowerStr text) typologyPatterns) = some p ∧
          (calculateRiskScore text n).2 = p.1 ∧
          0 < matchCount (lowerStr text) p.2)) ∧
    ((calculateRiskScore text n).2 = "General Suspicious Activity" ∨
      (calculateRiskScore text n).2 ∈ typologyPatterns.map Prod.fst) := by
  have hdef : (calculateRiskScore text n).2 =
      (typLoop (lowerStr text) typologyPatterns 0 "General Suspicious Activity").2 := rfl
  rw [hdef, typLoop_snd]
  rcases Nat.eq_zero_or_pos (maxMatch (lowerStr text) typologyPatterns) with h0 | hpos
  · rw [h0]
    simp
  · rw [if_pos hpos]
    rcases maxMatch_attained (lowerStr text) typologyPatterns with h0 | ⟨p, hp, hc⟩
    · omega
    · have hsome : (typologyPatterns.find?
          (fun q => matchCount (lowerStr text) q.2 ==
            maxMatch (lowerStr text) typologyPatterns)).isSome :=
        List.find?_isSome.mpr ⟨p, hp, by simp [hc]⟩
      obtain ⟨q, hq⟩ := Option.isSome_iff_exists.mp hsome
      have hqc : matchCount (lowerStr text) q.2 =
          maxMatch (lowerStr text) typologyPatterns := by
        simpa using List.find?_some hq
      have hqmem := List.mem_of_find?_eq_some hq
      rw [hq]
      constructor
      · right
        exact ⟨q, rfl, by simp, by omega⟩
      · right
        simp only [Option.map_some', Option.getD_some]
        exact List.mem_map.mpr ⟨q, hqmem, rfl⟩

/-- One entry of `SAR_TEMPLATES` in `llm/templates.py`. -/
structure SarTemplate where
  id : String
  typology : String
  title : String
  template : String
deriving DecidableEq
/-- `SAR_TEMPLATES[0]` from `llm/templates.py`. -/
def tmpl001 : SarTemplate where
  id := "tmpl_001"
  typology := "Money Laundering - Layering"
  title := "Multiple Account Aggregation then International Transfer"
  template :=
    "\n" ++
    "SUBJECT INFORMATION:\n" ++
    "The subject, [CUSTOMER NAME], holds account [ACCOUNT NO] opened [DATE].\n" ++
    "Customer profile: [OCCUPATION], with an average monthly credit of [AMOUNT].\n" ++
    "\n" ++
    "TRANSACTION SUMMARY:\n" ++
    "Between [START DATE] and [END DATE], the subject received a total of [AMOUNT]\n" ++
    "across [COUNT] inbound transfers from [COUNT] distinct originating accounts.\n" ++
    "Subsequently, [AMOUNT] was transferred via SWIFT to [DESTINATION COUNTRY].\n" ++
    "\n" ++
    "SUSPICIOUS ACTIVITY DESCRIPTION:\n" ++
    "The transaction pattern is inconsistent with the customer's known financial profile.\n" ++
    "The aggregation of funds from numerous unrelated sources followed immediately by \n" ++
    "international wire transfer is indicative of layering — a key stage of money laundering\n" ++
    "where illicit funds are moved through multiple accounts to obscure their origin.\n" ++
    "No legitimate business purpose has been identified to explain this activity.\n" ++
    "\n" ++
    "TYPOLOGY MATCH:\n" ++
    "This activity is consistent with the FATF money laundering typology:\n" ++
    "\"Structuring and layering through multiple accounts with rapid international movement.\"\n" ++
    "\n" ++
    "WHY THIS IS SUSPICIOUS:\n" ++
    "1. Volume far exceeds customer's stated income or business activity\n" ++
    "2. 47 unique senders with no apparent relationship to customer\n" ++
    "3. No time gap between receipt and outward remittance (same-day layering)\n" ++
    "4. Destination jurisdiction flagged as high-risk by FATF\n" ++
    "5. No invoices, contracts, or business rationale provided\n" ++
    "        "

/-- `SAR_TEMPLATES[1]` from `llm/templates.py`. -/
def tmpl002 : SarTemplate where
  id := "tmpl_002"
  typology := "Structuring / Smurfing"
  title := "Sub-threshold Cash Deposits to Avoid Reporting"
  template :=
    "\n" ++
    "SUBJECT INFORMATION:\n" ++
    "The subject, [CUSTOMER NAME], holds account [ACCOUNT NO].\n" ++
    "Customer profile: [OCCUPATION], no prior suspicious activity flagged.\n" ++
    "\n" ++
    "TRANSACTION SUMMARY:\n" ++
    "Over [TIMEFRAME], the subject made [COUNT] cash deposits ranging from \n" ++
    "[MIN AMOUNT] to [MAX AMOUNT] each, totaling [TOTAL AMOUNT].\n" ++
    "Each individual deposit fell below the ₹50,000 mandatory reporting threshold.\n" ++
    "\n" ++
    "SUSPICIOUS ACTIVITY DESCRIPTION:\n" ++
    "The consistent sub-threshold deposit pattern strongly suggests deliberate structuring\n" ++
    "to evade Currency Transaction Report (CTR) requirements. The deposits show a clear\n" ++
    "behavioral pattern: amounts are consistently just below the reporting threshold,\n" ++
    "deposits occur at irregular intervals designed to avoid detection, and no salary\n" ++
    "credit or business receipts account for the cash origin.\n" ++
    "\n" ++
    "TYPOLOGY MATCH:\n" ++
    "FATF Typology: \"Structuring (Smurfing) — deliberate fragmentation of large cash\n" ++
    "amounts into sub-threshold transactions to evade mandatory reporting obligations.\"\n" ++
    "\n" ++
    "WHY THIS IS SUSPICIOUS:\n" ++
    "1. All 9 deposits deliberately below ₹50,000 CTR threshold\n" ++
    "2. No salary or business income to explain cash source\n" ++
    "3. Pattern of deposits clustered within 72 hours\n" ++
    "4. Immediate withdrawal after last deposit\n" ++
    "5. Customer could not explain source of funds when contacted\n" ++
    "        "

/-- `SAR_TEMPLATES[2]` from `llm/templates.py`. -/
def tmpl003 : SarTemplate where
  id := "tmpl_003"
  typology := "Account Takeover Fraud"
  title := "Unauthorized Access Followed by Rapid Fund Transfer"
  template :=
    "\n" ++
    "SUBJECT INFORMATION:\n" ++
    "The subject account [ACCOUNT NO] belongs to [CUSTOMER NAME].\n" ++
    "Account holder profile: [AGE], [OCCUPATION], established customer since [YEAR].\n" ++
    "\n" ++
    "TRANSACTION SUMMARY:\n" ++
    "On [DATE], a login was detected from a new device (Device ID: [DEVICE]) and \n" ++
    "new geographic location ([CITY/COUNTRY]). Within [TIMEFRAME] of login, a \n" ++
    "transfer of [AMOUNT] was initiated to a newly added beneficiary [BENEFICIARY NAME],\n" ++
    "a first-time recipient never previously transacted with.\n" ++
    "\n" ++
    "SUSPICIOUS ACTIVITY DESCRIPTION:\n" ++
    "The sequence of events — new device login, new geography, new beneficiary addition,\n" ++
    "and immediate high-value transfer — is strongly consistent with an account takeover\n" ++
    "attack. The legitimate account holder confirmed they did not initiate these transactions.\n" ++
    "The beneficiary account has since been flagged as a mule account by our fraud team.\n" ++
    "\n" ++
    "TYPOLOGY MATCH:\n" ++
    "Fraud Typology: \"Account Takeover (ATO) — unauthorized access to customer account\n" ++
    "using stolen credentials, followed by rapid asset extraction to mule accounts.\"\n" ++
    "\n" ++
    "WHY THIS IS SUSPICIOUS:\n" ++
    "1. Login from unrecognized device and IP geolocation mismatch\n" ++
    "2. New high-value beneficiary added and paid within same session\n" ++
    "3. Transaction amount significantly exceeds customer's normal behavior\n" ++
    "4. Customer confirmed non-authorization of transaction\n" ++
    "5. Receiving account flagged in cross-bank fraud consortium database\n" ++
    "        "

/-- `SAR_TEMPLATES[3]` from `llm/templates.py`. -/
def tmpl004 : SarTemplate where
  id := "tmpl_004"
  typology := "Trade-Based Money Laundering"
  title := "Over/Under Invoicing in Import-Export Transactions"
  template :=
    "\n" ++
    "SUBJECT INFORMATION:\n" ++
    "The subject, [COMPANY NAME], is a registered importer/exporter, \n" ++
    "account [ACCOUNT NO], in operation since [YEAR].\n" ++
    "\n" ++
    "TRANSACTION SUMMARY:\n" ++
    "The subject received [COUNT] inward remittances totaling [AMOUNT] from \n" ++
    "[COUNTRY] during [TIMEFRAME], purportedly for goods export.\n" ++
    "Corresponding customs declarations show declared export value of [LOWER AMOUNT],\n" ++
    "creating an unexplained discrepancy of [DIFFERENCE].\n" ++
    "\n" ++
    "SUSPICIOUS ACTIVITY DESCRIPTION:\n" ++
    "The significant gap between remittances received and declared customs values \n" ++
    "indicates potential over-invoicing — a trade-based money laundering technique\n" ++
    "where the value of goods is deliberately misrepresented to transfer value\n" ++
    "across borders and integrate illicit funds into the legitimate financial system.\n" ++
    "\n" ++
    "TYPOLOGY MATCH:\n" ++
    "FATF Typology: \"Trade-Based Money Laundering (TBML) — manipulation of international\n" ++
    "trade transactions to transfer value and launder illicit proceeds.\"\n" ++
    "\n" ++
    "WHY THIS IS SUSPICIOUS:\n" ++
    "1. ₹2.3 crore discrepancy between bank receipts and customs declarations\n" ++
    "2. Counterparty located in FATF-listed jurisdiction\n" ++
    "3. Goods description vague — \"general merchandise\" with no HS codes\n" ++
    "4. No corresponding import of raw materials for stated manufacturing activity\n" ++
    "5. Director of company has prior AML advisory from another bank\n" ++
    "        "

/-- `SAR_TEMPLATES[4]` from `llm/templates.py`. -/
def tmpl005 : SarTemplate where
  id := "tmpl_005"
  typology := "Terrorist Financing"
  title := "Small Transfers to High-Risk Jurisdiction"
  template :=
    "\n" ++
    "SUBJECT INFORMATION:\n" ++
    "The subject, [CUSTOMER NAME], account [ACCOUNT NO], \n" ++
    "[OCCUPATION], customer since [YEAR].\n" ++
    "\n" ++
    "TRANSACTION SUMMARY:\n" ++
    "Over [TIMEFRAME], the subject made [COUNT] outward remittances of small amounts\n" ++
    "([AMOUNT RANGE] each) totaling [TOTAL] to recipients in [HIGH-RISK COUNTRY].\n" ++
    "Recipients appear to be individuals with no known business relationship.\n" ++
    "\n" ++
    "SUSPICIOUS ACTIVITY DESCRIPTION:\n" ++
    "The pattern of multiple small transfers to a high-risk jurisdiction, combined with\n" ++
    "the absence of any legitimate business or family connection, raises concerns of\n" ++
    "potential terrorist financing or sanctions evasion. Small amounts are typically\n" ++
    "used to avoid detection thresholds while cumulatively moving significant value.\n" ++
    "\n" ++
    "TYPOLOGY MATCH:\n" ++
    "FATF Typology: \"Terrorist Financing — movement of small value funds to high-risk\n" ++
    "jurisdictions to support extremist activities while avoiding detection thresholds.\"\n" ++
    "\n" ++
    "WHY THIS IS SUSPICIOUS:\n" ++
    "1. Recipients located in FATF high-risk and monitored jurisdiction\n" ++
    "2. No family or business connection to justify transfers\n" ++
    "3. Customer's income does not support frequency of international transfers\n" ++
    "4. Amounts designed to stay below SWIFT reporting thresholds\n" ++
    "5. Customer became evasive when asked purpose of transfers\n" ++
    "        "
/-- `SAR_TEMPLATES` from `llm/templates.py`. -/
def sarTemplates : List SarTemplate := [tmpl001, tmpl002, tmpl003, tmpl004, tmpl005]

/-- Outcome of one call to the text-generation backend (the
`chain.invoke` in `generate_sar`): `ok` is the generated narrative,
`error` is any exception or timeout, carrying `str(e)`. -/
inductive LLMOutcome where
  | ok (text : String)
  | error (msg : String)

/-- `retrieve_relevant_template(transaction_text)` from `llm/pipeline.py`
lines 53-69.  `queryResult` models the ChromaDB response for this call:
`some docs` is a successful query returning `(typology-metadata, document)`
pairs, over which the source folds the delimiter-formatted context string;
`none` models any exception raised while obtaining the collection or
querying it, on which the source returns `SAR_TEMPLATES[0]["template"]`.
The `transaction_text` argument only shapes the external query, so it is
unused once the response is given. -/
def retrieveRelevantTemplate (transaction_text : String)
    (queryResult : Option (List (String × String))) : String :=
  match queryResult with
  | some docs => docs.foldl
      (fun acc td => acc ++ "\n\n--- REFERENCE TEMPLATE (" ++ td.1 ++ ") ---\n" ++ td.2) ""
  | none => (sarTemplates.headD ⟨"", "", "", ""⟩).template

/-- `SAR_PROMPT.format(...)`: the `SAR_PROMPT_TEMPLATE` text of
`llm/pipeline.py` lines 129-174 with its six input variables substituted
(`risk_score` rendered via `str`), as assembled by `SAR_PROMPT | llm`. -/
def formatPrompt (reference_templates customer_name account_number typology : String)
    (risk_score : Int) (transactions : String) : String :=
  "You are a senior AML (Anti-Money Laundering) compliance officer at a major bank.\nYour task is to write a formal, regulator-ready Suspicious Activity Report (SAR) narrative.\n\nREFERENCE TEMPLATES (use these as style guides):\n" ++
  reference_templates ++
  "\n\n---\n\nNOW GENERATE A SAR FOR THIS CASE:\n\nCUSTOMER NAME: " ++ customer_name ++
  "\nACCOUNT NUMBER: " ++ account_number ++
  "\nDETECTED TYPOLOGY: " ++ typology ++
  "\nRISK SCORE: " ++ toString risk_score ++
  "/100\n\nTRANSACTION DETAILS:\n" ++ transactions ++
  "\n\n---\n\nWrite a complete, professional SAR narrative with EXACTLY these sections:\n\n" ++
  "## 1. SUBJECT INFORMATION" ++
  "\n[Full details about the customer and their normal account profile]\n\n" ++
  "## 2. TRANSACTION SUMMARY" ++
  "  \n[Precise summary of suspicious transactions with dates, amounts, and parties involved]\n\n" ++
  "## 3. SUSPICIOUS ACTIVITY DESCRIPTION" ++
  "\n[Detailed narrative explaining exactly what happened and why it is suspicious]\n\n" ++
  "## 4. TYPOLOGY MATCH" ++
  "\n[Map this activity to a known financial crime typology with explanation]\n\n" ++
  "## 5. RED FLAGS IDENTIFIED" ++
  "\n[Numbered list of specific red flags observed in this case]\n\n" ++
  "## 6. ANALYST RECOMMENDATION" ++
  "\n[Recommended next steps: file SAR / escalate / request documents / freeze account]\n\n" ++
  "## 7. AUDIT RATIONALE" ++
  "\n[Explain which specific data points influenced this narrative and why]\n\nWrite in formal regulatory language. Be specific, factual, and unambiguous.\nDo NOT include any disclaimers or meta-commentary. Write only the SAR narrative.\n"

/-- `generate_fallback_sar(customer_name, account_number, transactions,
typology, risk_score)` from `llm/pipeline.py` lines 250-305: the
deterministic fallback narrative, an f-string over the case fields. -/
def generateFallbackSar (customer_name account_number transactions typology : String)
    (risk_score : Int) : String :=
  "## 1. SUBJECT INFORMATION" ++
  "\nCustomer Name: " ++ customer_name ++
  "\nAccount Number: " ++ account_number ++
  "\nThis SAR has been raised based on automated pattern analysis of account activity.\nThe customer's transaction behaviour has deviated significantly from their established profile.\n\n" ++
  "## 2. TRANSACTION SUMMARY" ++
  "\nThe following suspicious transactions have been identified:\n" ++ transactions ++
  "\n\n" ++
  "## 3. SUSPICIOUS ACTIVITY DESCRIPTION" ++
  "\nAnalysis of the account activity reveals patterns inconsistent with the customer's \nknown financial profile and stated purpose of account. The transaction pattern \nsuggests deliberate structuring or layering of funds inconsistent with legitimate \nbusiness or personal activity. The velocity, volume, and nature of transactions \nobserved over the reporting period raise significant concerns.\n\n" ++
  "## 4. TYPOLOGY MATCH" ++
  "\nDetected Typology: " ++ typology ++
  "\nThis activity aligns with FATF-recognized money laundering/fraud typologies \ninvolving layering of funds through multiple transactions to obscure the origin \nof funds and evade detection thresholds.\n\n" ++
  "## 5. RED FLAGS IDENTIFIED" ++
  "\n1. Transaction pattern inconsistent with customer profile\n2. Unusual velocity of transactions detected\n3. Transaction amounts and counterparties raise AML concerns\n4. No apparent legitimate business purpose identified\n5. Pattern matches known financial crime typology: " ++ typology ++
  "\n\n" ++
  "## 6. ANALYST RECOMMENDATION" ++
  "\nRECOMMENDED ACTION: File Suspicious Activity Report immediately.\n- Escalate to Senior AML Officer for review\n- Place account under enhanced monitoring\n- Request source of funds documentation from customer\n- Cross-reference counterparties against sanctions and PEP lists\n- Consider account restriction pending investigation\n\n" ++
  "## 7. AUDIT RATIONALE" ++
  "\nRisk Score: " ++ toString risk_score ++
  "/100\nThis narrative was generated based on automated transaction pattern analysis.\nKey data points: transaction frequency, amount patterns, counterparty diversity,\nand geographic risk factors. All source data is preserved in the audit log.\nNOTE: This is a system-generated draft. Human analyst review and approval required before filing.\n"

/-- The `audit_data` dict built in `generate_sar` (lines 203-218) and
serialized with `json.dumps`; modelled structurally. -/
structure AuditData where
  risk_score : Int
  typology_detected : String
  rag_templates_used : List String
  transaction_length : Nat
  model_used : String
  prompt_template : String
  processing_steps : List String
deriving DecidableEq

/-- The dict returned by `generate_sar` (lines 242-247); `audit_data`
is kept structural rather than as its `json.dumps` rendering. -/
structure SarResult where
  narrative : String
  risk_score : Int
  typology : String
  audit_data : AuditData
deriving DecidableEq

/-- The note appended to `processing_steps` on the fallback path
(line 240). -/
def fallbackNote (e : String) : String :=
  "NOTE: LLM unavailable, fallback template used. Error: " ++ e

/-- `generate_sar(transactions, customer_name, account_number)` from
`llm/pipeline.py` lines 186-247.  External effects are parameters:
`queryResult` is this call's ChromaDB response (see
`retrieveRelevantTemplate`) and `llm` is the generation backend applied
to the formatted prompt. -/
def generateSar (transactions customer_name : String)
    (account_number : String)
    (queryResult : Option (List (String × String)))
    (llm : String → LLMOutcome) : SarResult :=
  let rt := calculateRiskScore transactions customer_name
  let reference_templates := retrieveRelevantTemplate transactions queryResult
  let audit_data : AuditData :=
    { risk_score := rt.1
      typology_detected := rt.2
      rag_templates_used := (sarTemplates.take 2).map (fun t => t.typology)
      transaction_length := transactions.length
      model_used := "llama3.1:8b (local)"
      prompt_template := "SAR_PROMPT_V1"
      processing_steps :=
        ["1. Risk keywords scanned and scored",
         "2. Typology pattern matched",
         "3. ChromaDB queried for relevant SAR templates",
         "4. LangChain prompt assembled with context",
         "5. Ollama LLM generated narrative",
         "6. Narrative stored with full audit trail"] }
  match llm (formatPrompt reference_templates customer_name account_number
      rt.2 rt.1 transactions) with
  | LLMOutcome.ok narrative =>
      { narrative := narrative
        risk_score := rt.1
        typology := rt.2
        audit_data := audit_data }
  | LLMOutcome.error e =>
      { narrative := generateFallbackSar customer_name account_number transactions rt.2 rt.1
        risk_score := rt.1
        typology := rt.2
        audit_data :=
          { audit_data with
              processing_steps := audit_data.processing_steps ++ [fallbackNote e] } }

/-- `CaseInput` from `backend/main.py` lines 46-51 (`additional_context`
defaults to the empty string). -/
structure CaseInput where
  customer_name : String
  account_number : String
  transactions : String
  analyst_name : String
  additional_context : String
deriving DecidableEq

/-- The success payload returned by `generate_sar_endpoint`
(`backend/main.py` lines 129-136); `audit_summary` is the deserialized
audit payload, kept structural. -/
structure GenerateResponse where
  success : Bool
  case_id : Nat
  sar_narrative : String
  risk_score : Int
  typology : String
  audit_summary : AuditData
deriving DecidableEq

/-- `generate_sar_endpoint` from `backend/main.py` lines 88-139, with the
external collaborators as parameters: `queryResult` and `llm` as in
`generateSar`, and `case_id` the id minted by the `save_case` persistence
collaborator.  Every call in the endpoint body is total in this embedding
(as in the source, where the pipeline absorbs its backends' failures), so
the `except` branch returning HTTP 500 is unreachable and the endpoint
always produces the success payload. -/
def generateSarEndpoint (caseInput : CaseInput)
    (queryResult : Option (List (String × String)))
    (llm : String → LLMOutcome) (case_id : Nat) : GenerateResponse :=
  let full_transaction_text :=
    if caseInput.additional_context ≠ "" then
      caseInput.transactions ++ "\n\nADDITIONAL CONTEXT:\n" ++ caseInput.additional_context
    else caseInput.transactions
  let result := generateSar full_transaction_text caseInput.customer_name
    caseInput.account_number queryResult llm
  { success := true
    case_id := case_id
    sar_narrative := result.narrative
    risk_score := result.risk_score
    typology := result.typology
    audit_summary := result.audit_data }

/-- Modelled from the spec: "`templates_referenced`: ordered list of
typology labels used as retrieval context."  The templates actually used
as retrieval context for a call are the ones in the query response (their
typology metadata, in response order), or, when retrieval fails, the fixed
fallback — the first Knowledge-Base template.  This is the spec-side
notion against which the audit field `rag_templates_used` is checked. -/
def specTemplatesReferenced
    (queryResult : Option (List (String × String))) : List String :=
  match queryResult with
  | some docs => docs.map Prod.fst
  | none => [(sarTemplates.headD ⟨"", "", "", ""⟩).typology]

/-- The seven section headings that both the generation prompt
(`SAR_PROMPT_TEMPLATE`) and the fallback narrative fix, in order. -/
def sectionHeadings : List String :=
  ["## 1. SUBJECT INFORMATION",
   "## 2. TRANSACTION SUMMARY",
   "## 3. SUSPICIOUS ACTIVITY DESCRIPTION",
   "## 4. TYPOLOGY MATCH",
   "## 5. RED FLAGS IDENTIFIED",
   "## 6. ANALYST RECOMMENDATION",
   "## 7. AUDIT RATIONALE"]

/-- `OccursInOrder pats s` holds when the strings `pats` all occur in `s`
as substrings, in the given order, at non-overlapping positions. -/
def OccursInOrder : List String → String → Prop
  | [], _ => True
  | p :: ps, s => ∃ pre post, s = pre ++ p ++ post ∧ OccursInOrder ps post

lemma oio_head (p : String) (ps : List String) (rest : String)
    (h : OccursInOrder ps rest) : OccursInOrder (p :: ps) (p ++ rest) :=
  ⟨"", rest, rfl, h⟩

lemma oio_append_left (l : List String) (a s : String)
    (h : OccursInOrder l s) : OccursInOrder l (a ++ s) := by
  cases l with
  | nil => trivial
  | cons p ps =>
    obtain ⟨pre, post, heq, h2⟩ := h
    exact ⟨a ++ pre, post, by rw [heq]; simp [String.append_assoc], h2⟩

/-- C5: for every case input, the deterministic fallback narrative
contains the seven section headings specified for the generative path —
subject information, transaction summary, suspicious activity
description, typology match, red flags identified, analyst
recommendation, audit rationale — in the same order, and the generation
prompt specifies exactly the same seven headings in the same order. -/
theorem fallback_seven_sections (customer_name account_number transactions ty : String)
    (risk_score : Int) (reference_templates cn2 an2 ty2 : String) (rs2 : Int) (tx2 : String) :
    OccursInOrder sectionHeadings
      (generateFallbackSar customer_name account_number transactions ty risk_score) ∧
    OccursInOrder sectionHeadings
      (formatPrompt reference_templates cn2 an2 ty2 rs2 tx2) := by
  constructor
  · simp only [generateFallbackSar, sectionHeadings, String.append_assoc]
    apply oio_head
    iterate 5 apply oio_append_left
    apply oio_head
    iterate 3 apply oio_append_left
    apply oio_head
    apply oio_append_left
    apply oio_head
    iterate 3 apply oio_append_left
    apply oio_head
    iterate 3 apply oio_append_left
    apply oio_head
    apply oio_append_left
    apply oio_head
    trivial
  · simp only [formatPrompt, sectionHeadings, String.append_assoc]
    iterate 13 apply oio_append_left
    apply oio_head
    apply oio_append_left
    apply oio_head
    apply oio_append_left
    apply oio_head
    apply oio_append_left
    apply oio_head
    apply oio_append_left
    apply oio_head
    apply oio_append_left
    apply oio_head
    apply oio_append_left
    apply oio_head
    trivial

lemma generateSar_risk_score (t n a : String) (qr : Option (List (String × String)))
    (llm : String → LLMOutcome) :
    (generateSar t n a qr llm).risk_score = (calculateRiskScore t n).1 := by
  simp only [generateSar]
  cases h : llm (formatPrompt (retrieveRelevantTemplate t qr) n a
      (calculateRiskScore t n).2 (calculateRiskScore t n).1 t) with
  | ok s => rfl
  | error e => rfl

/-- C7: every result of the generation entry point carries an audit
payload whose `risk_score` and `typology_detected` equal the result's own
top-level `risk_score` and `typology`, and whose `processing_steps` is
non-empty — for every retrieval response and every backend behaviour,
i.e. on both the live-generation and the fallback path. -/
theorem audit_no_drift (t n a : String) (qr : Option (List (String × String)))
    (llm : String → LLMOutcome) :
    (generateSar t n a qr llm).audit_data.risk_score = (generateSar t n a qr llm).risk_score ∧
    (generateSar t n a qr llm).audit_data.typology_detected = (generateSar t n a qr llm).typology ∧
    (generateSar t n a qr llm).audit_data.processing_steps ≠ [] := by
  simp only [generateSar]
  cases h : llm (formatPrompt (retrieveRelevantTemplate t qr) n a
      (calculateRiskScore t n).2 (calculateRiskScore t n).1 t) with
  | ok s => exact ⟨rfl, rfl, by simp⟩
  | error e => exact ⟨rfl, rfl, by simp⟩

/-- C8: if the retrieval index is unavailable or its query raises
(`queryResult = none`), retrieval returns the body of the first
Knowledge-Base template — a fixed, deterministic choice — without
surfacing any error, and synthesis still proceeds: the returned narrative
is the backend's output on the prompt built over that fallback template,
or the deterministic fallback narrative when the backend also fails. -/
theorem retrieval_failure_uses_first_template (t n a : String) (llm : String → LLMOutcome) :
    retrieveRelevantTemplate t none = tmpl001.template ∧
    (generateSar t n a none llm).narrative =
      (match llm (formatPrompt (retrieveRelevantTemplate t none) n a
          (calculateRiskScore t n).2 (calculateRiskScore t n).1 t) with
        | LLMOutcome.ok s => s
        | LLMOutcome.error _ =>
            generateFallbackSar n a t (calculateRiskScore t n).2 (calculateRiskScore t n).1) := by
  refine ⟨rfl, ?_⟩
  simp only [generateSar]
  cases h : llm (formatPrompt (retrieveRelevantTemplate t none) n a
      (calculateRiskScore t n).2 (calculateRiskScore t n).1 t) with
  | ok s => rfl
  | error e => rfl

/-- C10: on the fallback path the audit record's `processing_steps` keeps
all six pre-built entries unchanged — in particular
"5. Ollama LLM generated narrative" and
"6. Narrative stored with full audit trail" at positions 5 and 6
(1-indexed) — and the note naming the error is only appended as the
seventh entry. -/
theorem fallback_steps_preserved (t n a : String) (qr : Option (List (String × String)))
    (llm : String → LLMOutcome) (e : String)
    (h : llm (formatPrompt (retrieveRelevantTemplate t qr) n a
        (calculateRiskScore t n).2 (calculateRiskScore t n).1 t) = LLMOutcome.error e) :
    (generateSar t n a qr llm).audit_data.processing_steps =
      ["1. Risk keywords scanned and scored",
       "2. Typology pattern matched",
       "3. ChromaDB queried for relevant SAR templates",
       "4. LangChain prompt assembled with context",
       "5. Ollama LLM generated narrative",
       "6. Narrative stored with full audit trail",
       fallbackNote e] ∧
    (generateSar t n a qr llm).audit_data.processing_steps[4]? =
      some "5. Ollama LLM generated narrative" ∧
    (generateSar t n a qr llm).audit_data.processing_steps[5]? =
      some "6. Narrative stored with full audit trail" ∧
    (generateSar t n a qr llm).audit_data.processing_steps[6]? = some (fallbackNote e) ∧
    (generateSar t n a qr llm).audit_data.processing_steps.length = 7 := by
  simp only [generateSar]
  rw [h]
  exact ⟨rfl, rfl, rfl, rfl, rfl⟩

/-- Witness for `fallback_steps_preserved` at a concrete erroring backend. -/
theorem fallback_steps_preserved_witness :
    (generateSar "" "Jane Doe" "AC-1" (some [])
        (fun _ => LLMOutcome.error "boom")).audit_data.processing_steps =
      ["1. Risk keywords scanned and scored",
       "2. Typology pattern matched",
       "3. ChromaDB queried for relevant SAR templates",
       "4. LangChain prompt assembled with context",
       "5. Ollama LLM generated narrative",
       "6. Narrative stored with full audit trail",
       fallbackNote "boom"] ∧
    (generateSar "" "Jane Doe" "AC-1" (some [])
        (fun _ => LLMOutcome.error "boom")).audit_data.processing_steps[4]? =
      some "5. Ollama LLM generated narrative" ∧
    (generateSar "" "Jane Doe" "AC-1" (some [])
        (fun _ => LLMOutcome.error "boom")).audit_data.processing_steps[5]? =
      some "6. Narrative stored with full audit trail" ∧
    (generateSar "" "Jane Doe" "AC-1" (some [])
        (fun _ => LLMOutcome.error "boom")).audit_data.processing_steps[6]? =
      some (fallbackNote "boom") ∧
    (generateSar "" "Jane Doe" "AC-1" (some [])
        (fun _ => LLMOutcome.error "boom")).audit_data.processing_steps.length = 7 :=
  fallback_steps_preserved "" "Jane Doe" "AC-1" (some [])
    (fun _ => LLMOutcome.error "boom") "boom" rfl

/-- C2 counterexample: at a concrete input with an erroring backend, the
audit payload's backend-identifier field (`model_used`, the spec's
`generation_backend`) has exactly the same value as on a live run — the
unchanged real-model name — so it does not reflect that the fallback
produced the narrative, refuting the claim that degradation is surfaced
in that field. -/
theorem backend_field_not_updated_on_fallback :
    (generateSar "" "Jane Doe" "AC-1" (some [])
        (fun _ => LLMOutcome.error "timeout")).audit_data.model_used =
      (generateSar "" "Jane Doe" "AC-1" (some [])
        (fun _ => LLMOutcome.ok "narrative")).audit_data.model_used ∧
    (generateSar "" "Jane Doe" "AC-1" (some [])
        (fun _ => LLMOutcome.error "timeout")).audit_data.model_used =
      "llama3.1:8b (local)" :=
  ⟨rfl, rfl⟩

/-- C2 amended: whenever the generation backend errors or times out, the
call still returns a successful result (the fallback narrative), and the
degradation is surfaced in the audit payload's `processing_steps` — a
note naming the error is appended as its last entry — while the
backend-identifier field `model_used` keeps the real model's name on the
fallback path too. -/
theorem degradation_surfaced_in_steps_only (t n a : String)
    (qr : Option (List (String × String))) (llm : String → LLMOutcome) (e : String)
    (h : llm (formatPrompt (retrieveRelevantTemplate t qr) n a
        (calculateRiskScore t n).2 (calculateRiskScore t n).1 t) = LLMOutcome.error e) :
    (generateSar t n a qr llm).narrative =
      generateFallbackSar n a t (calculateRiskScore t n).2 (calculateRiskScore t n).1 ∧
    (generateSar t n a qr llm).audit_data.processing_steps.getLast? =
      some (fallbackNote e) ∧
    (generateSar t n a qr llm).audit_data.model_used = "llama3.1:8b (local)" := by
  simp only [generateSar]
  rw [h]
  exact ⟨rfl, by simp, rfl⟩

/-- Witness for `degradation_surfaced_in_steps_only` at a concrete
erroring backend. -/
theorem degradation_surfaced_in_steps_only_witness :
    (generateSar "" "Jane Doe" "AC-1" (some [])
        (fun _ => LLMOutcome.error "connection refused")).narrative =
      generateFallbackSar "Jane Doe" "AC-1" ""
        (calculateRiskScore "" "Jane Doe").2 (calculateRiskScore "" "Jane Doe").1 ∧
    (generateSar "" "Jane Doe" "AC-1" (some [])
        (fun _ => LLMOutcome.error "connection refused")).audit_data.processing_steps.getLast? =
      some (fallbackNote "connection refused") ∧
    (generateSar "" "Jane Doe" "AC-1" (some [])
        (fun _ => LLMOutcome.error "connection refused")).audit_data.model_used =
      "llama3.1:8b (local)" :=
  degradation_surfaced_in_steps_only "" "Jane Doe" "AC-1" (some [])
    (fun _ => LLMOutcome.error "connection refused") "connection refused" rfl

/-- C1: the audit record's `rag_templates_used` does not equal the
typology labels of the templates actually selected by retrieval.  At a
request whose retrieval returns the Account Takeover template, the audit
field still lists the typologies of the first two Knowledge-Base
templates (`SAR_TEMPLATES[:2]`, hard-coded in `generate_sar` line 206),
while the retrieval context actually used for the prompt is the Account
Takeover template alone. -/
theorem audit_templates_fixed_not_retrieved :
    (generateSar "unauthorized transfer from a new device" "Rahul Sharma" "AC-9"
        (some [("Account Takeover Fraud", tmpl003.template)])
        (fun _ => LLMOutcome.ok "narrative")).audit_data.rag_templates_used =
      ["Money Laundering - Layering", "Structuring / Smurfing"] ∧
    specTemplatesReferenced (some [("Account Takeover Fraud", tmpl003.template)]) =
      ["Account Takeover Fraud"] ∧
    (generateSar "unauthorized transfer from a new device" "Rahul Sharma" "AC-9"
        (some [("Account Takeover Fraud", tmpl003.template)])
        (fun _ => LLMOutcome.ok "narrative")).audit_data.rag_templates_used ≠
      specTemplatesReferenced (some [("Account Takeover Fraud", tmpl003.template)]) := by
  refine ⟨rfl, rfl, ?_⟩
  decide

/-- C4 counterexample: with the customer name and the transaction text
both empty — the condition under which the claim requires a failure to
propagate — the endpoint still returns its success payload (there is no
validation of required fields anywhere on the path), with the floor risk
score and the default typology. -/
theorem empty_required_fields_still_succeed :
    (generateSarEndpoint ⟨"", "AC-1", "", "analyst", ""⟩ (some [])
        (fun _ => LLMOutcome.ok "generated narrative") 1).success = true ∧
    (generateSarEndpoint ⟨"", "AC-1", "", "analyst", ""⟩ (some [])
        (fun _ => LLMOutcome.ok "generated narrative") 1).risk_score = 30 ∧
    (generateSarEndpoint ⟨"", "AC-1", "", "analyst", ""⟩ (some [])
        (fun _ => LLMOutcome.ok "generated narrative") 1).typology =
      "General Suspicious Activity" := by
  refine ⟨rfl, ?_, ?_⟩ <;> decide

/-- C4 amended: the generation entry point never propagates a failure to
its caller — for every input, including empty customer name and empty
transaction text, and for every retrieval and backend behaviour, it
returns the success payload (with an in-range risk score); the classifier
and synthesizer are total, and no required-field validation exists on
this path. -/
theorem endpoint_always_succeeds (c : CaseInput)
    (qr : Option (List (String × String))) (llm : String → LLMOutcome) (cid : Nat) :
    (generateSarEndpoint c qr llm cid).success = true ∧
    30 ≤ (generateSarEndpoint c qr llm cid).risk_score := by
  constructor
  · rfl
  · have h : (generateSarEndpoint c qr llm cid).risk_score =
        (generateSar
          (if c.additional_context ≠ "" then
            c.transactions ++ "\n\nADDITIONAL CONTEXT:\n" ++ c.additional_context
          else c.transactions) c.customer_name c.account_number qr llm).risk_score := rfl
    rw [h, generateSar_risk_score]
    exact (calculateRiskScore_fst _ _).1
